import Mathlib

/-!
Verification of the hexa-ddd-blueprint project scaffolding generator.

The development shallowly embeds the generator's path planner, generation
engine and name validator.  Relative file paths are modelled as lists of
path components (`List String`); a filesystem is modelled as the list of
absolute paths that currently exist.  Rendered file contents are opaque:
an entry records the template key it would be rendered from, or that the
file is written empty (the `__init__.py` files).
-/

/-- Content written to a planned file: either the empty string (as written
by the generator for package-init files) or the rendering of a named
template. -/
inductive Content where
  | empty : Content
  | template (key : String) : Content
deriving DecidableEq

instance : Nonempty Content := ⟨Content.empty⟩

/-- One planned write: a path (relative, as components) plus its content. -/
abbrev Entry := List String × Content

instance : Nonempty Entry := ⟨([], Content.empty)⟩

/-- Configuration record consumed by the generator, mirroring the keys of
the `config` dict (`name, description, author, db, python, docker, ci,
devcontainer`). -/
structure Config where
  name : String
  description : String
  author : String
  db : String
  python : String
  docker : Bool
  ci : Bool
  devcontainer : Bool
deriving DecidableEq

/-- Persistence-adapter entries written by `_generate_db_adapter`, relative
to the `src/<name>` directory, in source order. -/
def dbAdapterEntries (db : String) : List Entry :=
  [(["adapters", "outbound", "persistence", "__init__.py"], .empty),
   (["adapters", "outbound", "persistence", db, "__init__.py"], .empty),
   (["adapters", "outbound", "persistence", db, "database.py"],
     .template ("db/" ++ db ++ "/database.py.j2")),
   (["adapters", "outbound", "persistence", db, "models.py"],
     .template ("db/" ++ db ++ "/models.py.j2")),
   (["adapters", "outbound", "persistence", db, "repositories.py"],
     .template ("db/" ++ db ++ "/repositories.py.j2")),
   (["adapters", "outbound", "persistence", db, "config.py"],
     .template ("db/" ++ db ++ "/config.py.j2"))]

/-- Entries written by `_generate_source_tree`, relative to the
`src/<name>` directory, in source order, with the two `db`-conditional
blocks exactly where the source has them. -/
def srcEntries (db : String) : List Entry :=
  [(["__init__.py"], .template "base/init.py.j2"),
   (["__main__.py"], .template "base/__main__.py.j2"),
   (["domain", "__init__.py"], .empty),
   (["domain", "models", "__init__.py"], .empty),
   (["domain", "services", "__init__.py"], .empty),
   (["domain", "events", "__init__.py"], .empty),
   (["domain", "events", "base.py"], .template "base/domain_event.py.j2"),
   (["domain", "events", "events.py"], .template "base/events.py.j2"),
   (["domain", "exceptions", "__init__.py"], .template "base/exceptions/__init__.py.j2"),
   (["domain", "exceptions", "base.py"], .template "base/exceptions/base.py.j2"),
   (["domain", "exceptions", "validation.py"], .template "base/exceptions/validation.py.j2"),
   (["application", "__init__.py"], .empty),
   (["application", "ports", "__init__.py"], .empty),
   (["application", "ports", "inbound", "__init__.py"], .empty),
   (["application", "ports", "outbound", "__init__.py"], .empty)]
  ++ (if db ≠ "none" then
       [(["application", "ports", "outbound", "database.py"],
          .template "base/database_port.py.j2")]
      else [])
  ++ [(["application", "services", "__init__.py"], .empty),
      (["application", "dto", "__init__.py"], .empty),
      (["adapters", "__init__.py"], .empty),
      (["adapters", "inbound", "__init__.py"], .empty),
      (["adapters", "inbound", "api", "__init__.py"], .empty),
      (["adapters", "inbound", "api", "rest", "__init__.py"], .empty),
      (["adapters", "inbound", "api", "rest", "app.py"], .template "base/app.py.j2"),
      (["adapters", "inbound", "api", "rest", "dependencies.py"],
        .template "base/dependencies.py.j2"),
      (["adapters", "inbound", "api", "rest", "routes", "__init__.py"], .empty),
      (["adapters", "outbound", "__init__.py"], .empty)]
  ++ (if db ≠ "none" then dbAdapterEntries db else [])
  ++ [(["adapters", "config", "__init__.py"], .empty),
      (["adapters", "config", "settings.py"], .template "base/settings.py.j2"),
      (["domain", "shared", "__init__.py"], .empty),
      (["domain", "shared", "building_blocks.py"], .template "base/building_blocks.py.j2")]

/-- Entries written by `_generate_tests`, relative to the project root. -/
def testEntries : List Entry :=
  [(["tests", "conftest.py"], .template "base/conftest.py.j2"),
   (["tests", "unit", "domain", "__init__.py"], .empty),
   (["tests", "unit", "application", "__init__.py"], .empty),
   (["tests", "integration", "adapters", "__init__.py"], .empty)]

/-- Entries written by `_generate_docs`. -/
def docEntries : List Entry :=
  [(["docs", "architecture", "hexagonal.puml"], .template "docs/hexagonal.puml.j2")]

/-- Entries written by `_generate_root_files`. -/
def rootEntries : List Entry :=
  [(["pyproject.toml"], .template "base/pyproject.toml.j2"),
   (["README.md"], .template "base/README.md.j2"),
   ([".gitignore"], .template "base/gitignore.j2"),
   ([".pre-commit-config.yaml"], .template "base/pre-commit-config.yaml.j2"),
   ([".env"], .template "base/env.j2"),
   ([".env.dev"], .template "base/env.dev.j2")]

/-- Entries written by `_generate_docker`. -/
def dockerEntries : List Entry :=
  [(["docker", "Dockerfile"], .template "docker/Dockerfile.j2"),
   (["docker", "docker-compose.yml"], .template "docker/docker-compose.yml.j2"),
   ([".dockerignore"], .template "docker/dockerignore.j2")]

/-- Entries written by `_generate_ci`. -/
def ciEntries : List Entry :=
  [([".github", "workflows", "ci.yml"], .template "ci/ci.yml.j2")]

/-- Entries written by `_generate_devcontainer`: the descriptor, then the
devcontainer-scoped compose file when `db != "none"`, then the
`.vscode/launch.json` file at the project root. -/
def devEntries (db : String) : List Entry :=
  [([".devcontainer", "devcontainer.json"], .template "devcontainer/devcontainer.json.j2")]
  ++ (if db ≠ "none" then
       [([".devcontainer", "docker-compose.yml"],
          .template "devcontainer/docker-compose.yml.j2")]
      else [])
  ++ [([".vscode", "launch.json"], .template "devcontainer/launch.json.j2")]

/-- The full ordered plan of `generate_project` (earlier-revision generator,
`blueprint/generators/project.py`), relative to the project root: the
source tree under `src/<name>/`, tests, docs and root files, then the
flag-gated docker, ci and devcontainer blocks, in source order. -/
def bpPlan (c : Config) : List Entry :=
  (srcEntries c.db).map (fun e => (["src", c.name] ++ e.1, e.2))
  ++ testEntries ++ docEntries ++ rootEntries
  ++ (if c.docker then dockerEntries else [])
  ++ (if c.ci then ciEntries else [])
  ++ (if c.devcontainer then devEntries c.db else [])

/-- Relative paths of the plan, in order. -/
def bpPlanPaths (c : Config) : List (List String) :=
  (bpPlan c).map (·.1)

/-- The generation engine of `generate_project`: resolves the target root
to `<cwd>/<name>`, fails with the `FileExistsError` message when that path
already exists, and otherwise performs the planned writes.  The check
precedes every write, exactly as in the source where the `raise` sits
before the first `_write_file` call. -/
def bpGenerate (c : Config) (cwd : List String) (fs : List (List String)) :
    Except String (List Entry) :=
  if (cwd ++ [c.name]) ∈ fs then
    .error ("Directory '" ++ c.name ++ "' already exists. Remove it or choose a different name.")
  else
    .ok (bpPlan c)

/-- Filesystem after a run of `generate_project`: unchanged on the
precondition failure, extended by the planned files under the root
otherwise. -/
def bpRunFs (c : Config) (cwd : List String) (fs : List (List String)) :
    List (List String) :=
  match bpGenerate c cwd fs with
  | .error _ => fs
  | .ok es => fs ++ es.map (fun e => (cwd ++ [c.name]) ++ e.1)

/-- Character class `[a-zA-Z0-9_]` of the validation regex. -/
def isWordChar (ch : Char) : Bool :=
  ch.isAlphanum || ch == '_'

/-- Character class `[a-zA-Z_]` of the validation regex. -/
def isIdentStart (ch : Char) : Bool :=
  ch.isAlpha || ch == '_'

/-- The identifier grammar proper: first character a letter or underscore,
every later character a letter, digit or underscore; the empty string
never matches. -/
def identCore : List Char → Bool
  | [] => false
  | ch :: rest => isIdentStart ch && rest.all isWordChar

/-- Python's `re.match(r"^[a-zA-Z_][a-zA-Z0-9_]*$", s)` as a predicate.
In Python, `$` matches at the end of the string or just before a single
trailing newline, so a string consisting of an identifier followed by one
final newline also matches. -/
def pyRegexAccepts (s : String) : Bool :=
  identCore s.data || (s.data.getLast? == some '\n' && identCore s.data.dropLast)

/-- The keyword list of `keyword.kwlist` for Python 3. -/
def pyKeywords : List String :=
  ["False", "None", "True", "and", "as", "assert", "async", "await", "break",
   "class", "continue", "def", "del", "elif", "else", "except", "finally",
   "for", "from", "global", "if", "import", "in", "is", "lambda", "nonlocal",
   "not", "or", "pass", "raise", "return", "try", "while", "with", "yield"]

/-- `keyword.iskeyword`. -/
def iskeyword (s : String) : Bool :=
  pyKeywords.contains s

/-- `re.sub(r"[^a-zA-Z0-9_]", "_", s)`: every character outside
`[a-zA-Z0-9_]` replaced by an underscore.  Used both for the validator's
suggested fix and for deriving the package name in current-directory
mode. -/
def subNonWord (s : String) : String :=
  String.mk (s.data.map (fun ch => if isWordChar ch then ch else '_'))

/-- `_validate_project_name` of the later-revision CLI
(`hexa_ddd_blueprint/cli/main.py`): the regex check with its hint-bearing
message, then the keyword check; an error models `typer.Exit(code=1)`. -/
def hexaValidate (name : String) : Except String Unit :=
  if !(pyRegexAccepts name) then
    .error ("Invalid project name '" ++ name
      ++ "'. Only letters, digits, and underscores are allowed (cannot start with a digit). Hint: try '"
      ++ subNonWord name ++ "' instead.")
  else if iskeyword name then
    .error ("Invalid project name '" ++ name ++ "'. Python keywords are not allowed.")
  else
    .ok ()

/-- Process exit status of the `new` command's validation step: errors
raise `typer.Exit(code=1)`. -/
def hexaValidateExit (name : String) : Nat :=
  match hexaValidate name with
  | .error _ => 1
  | .ok _ => 0

/-- Package-name derivation for `new .` (later-revision CLI, the
current-directory sentinel): the basename of the current directory with
every character outside `[a-zA-Z0-9_]` replaced by an underscore. -/
def deriveDotName (cwdBase : String) : String :=
  subNonWord cwdBase

/-- Modelled from the spec: the later revision's path plan.  The
generator module of the later revision (`hexa_ddd_blueprint/generators/`)
is not among the source files here — only its CLI and its tests are — so
the plan follows the spec's words: a layered source tree under
`src/<name>/` (domain with models/services/events/exceptions/shared,
application with inbound/outbound ports and a use-case/DTO area, adapters
with an inbound API subtree and an outbound subtree), a root package
entry point, a unit/integration test split, an architecture-diagram
documentation file and root metadata files; a database port and a
persistence subtree gated by `db`, and docker/ci/devcontainer blocks
gated by their flags. -/
def hexaPlanPaths (name db : String) (docker ci devcontainer : Bool) :
    List (List String) :=
  [["src", name, "__init__.py"],
   ["src", name, "__main__.py"],
   ["src", name, "domain", "models", "__init__.py"],
   ["src", name, "domain", "services", "__init__.py"],
   ["src", name, "domain", "events", "__init__.py"],
   ["src", name, "domain", "exceptions", "__init__.py"],
   ["src", name, "domain", "shared", "__init__.py"],
   ["src", name, "application", "ports", "inbound", "__init__.py"],
   ["src", name, "application", "ports", "outbound", "__init__.py"],
   ["src", name, "application", "use_cases", "__init__.py"],
   ["src", name, "application", "dto", "__init__.py"],
   ["src", name, "adapters", "inbound", "api", "__init__.py"],
   ["src", name, "adapters", "outbound", "__init__.py"],
   ["tests", "unit", "__init__.py"],
   ["tests", "integration", "__init__.py"],
   ["docs", "architecture", "hexagonal.puml"],
   ["pyproject.toml"], ["README.md"], [".gitignore"],
   [".pre-commit-config.yaml"], [".env"], [".env.dev"]]
  ++ (if db ≠ "none" then
       [["src", name, "application", "ports", "outbound", "database.py"],
        ["src", name, "adapters", "outbound", "persistence", db, "database.py"],
        ["src", name, "adapters", "outbound", "persistence", db, "models.py"],
        ["src", name, "adapters", "outbound", "persistence", db, "repositories.py"],
        ["src", name, "adapters", "outbound", "persistence", db, "config.py"]]
      else [])
  ++ (if docker then [["docker", "Dockerfile"], ["docker", "docker-compose.yml"], [".dockerignore"]] else [])
  ++ (if ci then [[".github", "workflows", "ci.yml"]] else [])
  ++ (if devcontainer then
       [[".devcontainer", "devcontainer.json"]]
       ++ (if db ≠ "none" then [[".devcontainer", "docker-compose.yml"]] else [])
       ++ [[".vscode", "launch.json"]]
      else [])

/-- Modelled from the spec: the later revision's generation engine (its
generator module is not among the source files here).  Per spec §4.3 it
resolves the target root to the current working directory when
`use_current_directory` is set and to `<cwd>/<name>` otherwise; in
current-directory mode it fails with a "directory not empty" error when
the directory contains any entry, in named-subdirectory mode with a
"directory exists" error when the path exists; the check precedes every
write, and the flag changes only the root the relative plan is resolved
against. -/
def hexaGenerate (name db : String) (docker ci devcontainer useCwd : Bool)
    (cwd : List String) (fs : List (List String)) :
    Except String (List (List String)) :=
  if useCwd then
    if fs.any (fun p => cwd.isPrefixOf p && !(p == cwd)) then
      .error "Target directory is not empty. Remove its contents or choose a project name."
    else
      .ok ((hexaPlanPaths name db docker ci devcontainer).map (fun r => cwd ++ r))
  else
    if (cwd ++ [name]) ∈ fs then
      .error ("Directory '" ++ name ++ "' already exists. Remove it or choose a different name.")
    else
      .ok ((hexaPlanPaths name db docker ci devcontainer).map (fun r => (cwd ++ [name]) ++ r))

/-- Filesystem after a run of the later revision's engine: unchanged on a
precondition failure. -/
def hexaRunFs (name db : String) (docker ci devcontainer useCwd : Bool)
    (cwd : List String) (fs : List (List String)) : List (List String) :=
  match hexaGenerate name db docker ci devcontainer useCwd cwd fs with
  | .error _ => fs
  | .ok ws => fs ++ ws

/-- Absolute paths written by a successful run of the later revision's
engine (empty on failure). -/
def hexaWrites (name db : String) (docker ci devcontainer useCwd : Bool)
    (cwd : List String) (fs : List (List String)) : List (List String) :=
  match hexaGenerate name db docker ci devcontainer useCwd cwd fs with
  | .error _ => []
  | .ok ws => ws

/-- Modelled from the spec: the settings template renders the
database-specific fields (pool size, pool timeout, command timeout and a
database URL) exactly when `db` is not `none`; template bodies are not
among the source files here. -/
def settingsHasDbFields (db : String) : Bool :=
  db != "none"

/-- Modelled from the spec: the package-manifest template renders the
database driver/ORM/migration dependency names exactly when `db` is not
`none`; template bodies are not among the source files here. -/
def pyprojectHasDbDeps (db : String) : Bool :=
  db != "none"

/-! ### Helper lemmas -/

/-- A list starting with `a` is never a prefix of a list whose head is not
`a`. -/
theorem not_prefix_of_head_ne {a : String} {t p : List String}
    (h : p.headD "" ≠ a) : ¬ ((a :: t) <+: p) := by
  cases p with
  | nil => simp
  | cons b q =>
    rw [List.cons_prefix_cons]
    rintro ⟨rfl, -⟩
    exact h rfl

/-- Two lists of paths whose sets of first components are disjoint are
disjoint. -/
theorem heads_disj {l₁ l₂ : List (List String)} {h₁ h₂ : List String}
    (H₁ : ∀ p ∈ l₁, p.headD "" ∈ h₁) (H₂ : ∀ p ∈ l₂, p.headD "" ∈ h₂)
    (H : ∀ s ∈ h₁, s ∉ h₂) : List.Disjoint l₁ l₂ :=
  fun a ha hb => H _ (H₁ a ha) (H₂ a hb)

/-- First components of the devcontainer block's paths. -/
theorem dev_first (db : String) :
    ∀ p ∈ (devEntries db).map (·.1), p.headD "" ∈ [".devcontainer", ".vscode"] := by
  unfold devEntries
  split <;> decide

/-- List of top-level names of the unconditional part of the plan. -/
def baseHeads : List String :=
  ["src", "tests", "docs", "pyproject.toml", "README.md",
   ".gitignore", ".pre-commit-config.yaml", ".env", ".env.dev"]

/-- First components of the flags-off plan: always one of the base tree's
top-level names. -/
theorem base_first (nm de au db py : String) :
    ∀ p ∈ bpPlanPaths ⟨nm, de, au, db, py, false, false, false⟩,
      p.headD "" ∈ baseHeads := by
  intro p hp
  simp [bpPlanPaths, bpPlan] at hp
  rcases hp with ⟨e, _, rfl⟩ | hp | hp | hp
  · simp [baseHeads]
  · exact (by decide : ∀ q ∈ testEntries.map (·.1), q.headD "" ∈ baseHeads) p
      (by simpa using hp)
  · exact (by decide : ∀ q ∈ docEntries.map (·.1), q.headD "" ∈ baseHeads) p
      (by simpa using hp)
  · exact (by decide : ∀ q ∈ rootEntries.map (·.1), q.headD "" ∈ baseHeads) p
      (by simpa using hp)

/-- Any source-tree entry appears in the plan under `src/<name>/`. -/
theorem mem_src_plan (c : Config) (e : Entry) (he : e ∈ srcEntries c.db) :
    (["src", c.name] ++ e.1) ∈ bpPlanPaths c := by
  unfold bpPlanPaths bpPlan
  simp only [List.map_append, List.map_map]
  exact List.mem_append_left _ (List.mem_append_left _ (List.mem_append_left _
    (List.mem_append_left _ (List.mem_append_left _ (List.mem_append_left _
      (List.mem_map.mpr ⟨e, he, rfl⟩))))))

/-- A Python keyword consists only of word characters, so the
underscore-substitution fix leaves it unchanged. -/
theorem kw_subNonWord {s : String} (h : iskeyword s = true) : subNonWord s = s := by
  have hs : s ∈ pyKeywords := by
    simpa [iskeyword] using h
  fin_cases hs <;> rfl

/-- Decomposition of plan membership by origin: the source tree, the
unconditional root-level blocks, and the three flag-gated blocks. -/
theorem mem_bpPlanPaths_iff (c : Config) (p : List String) :
    p ∈ bpPlanPaths c ↔
      (∃ e ∈ srcEntries c.db, ["src", c.name] ++ e.1 = p)
      ∨ p ∈ testEntries.map (·.1) ∨ p ∈ docEntries.map (·.1) ∨ p ∈ rootEntries.map (·.1)
      ∨ (c.docker = true ∧ p ∈ dockerEntries.map (·.1))
      ∨ (c.ci = true ∧ p ∈ ciEntries.map (·.1))
      ∨ (c.devcontainer = true ∧ p ∈ (devEntries c.db).map (·.1)) := by
  unfold bpPlanPaths bpPlan
  cases c.docker <;> cases c.ci <;> cases c.devcontainer <;>
    simp [List.mem_append, List.mem_map, or_assoc]

/-- The launch-configuration file is in the devcontainer block for every
database choice. -/
theorem launch_mem_dev (db : String) :
    [".vscode", "launch.json"] ∈ (devEntries db).map (·.1) := by
  unfold devEntries
  split <;> decide

/-- Sample configuration: `db = none`, all feature flags off. -/
def cfgDevOff : Config := ⟨"proj", "A demo project", "Dev", "none", "3.12", false, false, false⟩

/-- Sample configuration: `db = none`, only the devcontainer flag on. -/
def cfgDevOn : Config := ⟨"proj", "A demo project", "Dev", "none", "3.12", false, false, true⟩

/-- Sample configuration: `db = none`, only the docker flag on. -/
def cfgDockerOnly : Config := ⟨"proj", "A demo project", "Dev", "none", "3.12", true, false, false⟩

/-- Sample configuration: `db = postgres`, all feature flags off. -/
def cfgSql : Config := ⟨"sqlproj", "A demo project", "Dev", "postgres", "3.12", false, false, false⟩

/-! ### C1 -/

/-- C1: in named-subdirectory mode, when the resolved root `<cwd>/<name>`
already exists, generation fails with the "directory exists" error and
the filesystem is unchanged — the existence check precedes every write. -/
theorem c1_existing_target_blocks_generation (c : Config) (cwd : List String)
    (fs : List (List String)) (h : (cwd ++ [c.name]) ∈ fs) :
    bpGenerate c cwd fs
      = .error ("Directory '" ++ c.name ++ "' already exists. Remove it or choose a different name.")
    ∧ bpRunFs c cwd fs = fs := by
  constructor
  · unfold bpGenerate
    rw [if_pos h]
  · unfold bpRunFs bpGenerate
    rw [if_pos h]

/-- Witness for C1 at a concrete configuration and filesystem. -/
theorem c1_witness :
    (["home", "proj"] ∈ ([["home"], ["home", "proj"]] : List (List String)))
    ∧ (bpGenerate cfgDevOff ["home"] [["home"], ["home", "proj"]]
        = .error ("Directory '" ++ cfgDevOff.name ++ "' already exists. Remove it or choose a different name.")
      ∧ bpRunFs cfgDevOff ["home"] [["home"], ["home", "proj"]] = [["home"], ["home", "proj"]]) :=
  ⟨by decide, c1_existing_target_blocks_generation cfgDevOff ["home"] _ (by decide)⟩

/-! ### C9 -/

/-- C9: the planned sequence of writes is a function of the configuration
record alone — two successful runs from any working directories and any
filesystem states produce the identical, identically-ordered plan. -/
theorem c9_plan_deterministic (c : Config) (cwd₁ cwd₂ : List String)
    (fs₁ fs₂ : List (List String)) (ws₁ ws₂ : List Entry)
    (h₁ : bpGenerate c cwd₁ fs₁ = .ok ws₁) (h₂ : bpGenerate c cwd₂ fs₂ = .ok ws₂) :
    ws₁ = ws₂ := by
  unfold bpGenerate at h₁ h₂
  split at h₁
  · exact absurd h₁ (by simp)
  · split at h₂
    · exact absurd h₂ (by simp)
    · exact (Except.ok.inj h₁).symm.trans (Except.ok.inj h₂)

/-- Witness for C9: two runs from different roots and filesystem states
both produce the explicit forty-entry plan. -/
theorem c9_witness :
    bpPlan cfgDevOff
      = [(["src", "proj", "__init__.py"], .template "base/init.py.j2"),
         (["src", "proj", "__main__.py"], .template "base/__main__.py.j2"),
         (["src", "proj", "domain", "__init__.py"], .empty),
         (["src", "proj", "domain", "models", "__init__.py"], .empty),
         (["src", "proj", "domain", "services", "__init__.py"], .empty),
         (["src", "proj", "domain", "events", "__init__.py"], .empty),
         (["src", "proj", "domain", "events", "base.py"], .template "base/domain_event.py.j2"),
         (["src", "proj", "domain", "events", "events.py"], .template "base/events.py.j2"),
         (["src", "proj", "domain", "exceptions", "__init__.py"], .template "base/exceptions/__init__.py.j2"),
         (["src", "proj", "domain", "exceptions", "base.py"], .template "base/exceptions/base.py.j2"),
         (["src", "proj", "domain", "exceptions", "validation.py"], .template "base/exceptions/validation.py.j2"),
         (["src", "proj", "application", "__init__.py"], .empty),
         (["src", "proj", "application", "ports", "__init__.py"], .empty),
         (["src", "proj", "application", "ports", "inbound", "__init__.py"], .empty),
         (["src", "proj", "application", "ports", "outbound", "__init__.py"], .empty),
         (["src", "proj", "application", "services", "__init__.py"], .empty),
         (["src", "proj", "application", "dto", "__init__.py"], .empty),
         (["src", "proj", "adapters", "__init__.py"], .empty),
         (["src", "proj", "adapters", "inbound", "__init__.py"], .empty),
         (["src", "proj", "adapters", "inbound", "api", "__init__.py"], .empty),
         (["src", "proj", "adapters", "inbound", "api", "rest", "__init__.py"], .empty),
         (["src", "proj", "adapters", "inbound", "api", "rest", "app.py"], .template "base/app.py.j2"),
         (["src", "proj", "adapters", "inbound", "api", "rest", "dependencies.py"], .template "base/dependencies.py.j2"),
         (["src", "proj", "adapters", "inbound", "api", "rest", "routes", "__init__.py"], .empty),
         (["src", "proj", "adapters", "outbound", "__init__.py"], .empty),
         (["src", "proj", "adapters", "config", "__init__.py"], .empty),
         (["src", "proj", "adapters", "config", "settings.py"], .template "base/settings.py.j2"),
         (["src", "proj", "domain", "shared", "__init__.py"], .empty),
         (["src", "proj", "domain", "shared", "building_blocks.py"], .template "base/building_blocks.py.j2"),
         (["tests", "conftest.py"], .template "base/conftest.py.j2"),
         (["tests", "unit", "domain", "__init__.py"], .empty),
         (["tests", "unit", "application", "__init__.py"], .empty),
         (["tests", "integration", "adapters", "__init__.py"], .empty),
         (["docs", "architecture", "hexagonal.puml"], .template "docs/hexagonal.puml.j2"),
         (["pyproject.toml"], .template "base/pyproject.toml.j2"),
         (["README.md"], .template "base/README.md.j2"),
         ([".gitignore"], .template "base/gitignore.j2"),
         ([".pre-commit-config.yaml"], .template "base/pre-commit-config.yaml.j2"),
         ([".env"], .template "base/env.j2"),
         ([".env.dev"], .template "base/env.dev.j2")] :=
  c9_plan_deterministic cfgDevOff ["home", "alice"] ["home", "bob"] [] [["home", "bob", "other"]]
    _ _ rfl rfl

/-! ### C4 -/

/-- C4 (code bug): the validator accepts the raw name consisting of
`abc` followed by a newline, although the newline is not a letter, digit
or underscore, so the claimed grammar (and the function's own
"valid Python identifier" contract) requires rejection.  The cause is
that Python's `$` anchor also matches just before a single trailing
newline.  The validator therefore exits with status `0` on this input. -/
theorem c4_validator_accepts_trailing_newline :
    hexaValidate "abc\n" = Except.ok ()
    ∧ identCore "abc\n".data = false
    ∧ hexaValidateExit "abc\n" = 0 :=
  ⟨rfl, by decide, rfl⟩

/-! ### C5 -/

/-- C5: every rejection message of the validator contains, as a
contiguous substring, the suggested identifier obtained by replacing
every character outside `[a-zA-Z0-9_]` with an underscore (for a
keyword rejection the substitution is the identity and the message
quotes the name itself). -/
theorem c5_rejection_contains_suggestion (name msg : String)
    (h : hexaValidate name = .error msg) :
    ∃ pre post : String, msg = pre ++ subNonWord name ++ post := by
  unfold hexaValidate at h
  cases hre : pyRegexAccepts name with
  | false =>
    rw [hre] at h
    simp only [Bool.not_false, if_true] at h
    exact ⟨"Invalid project name '" ++ name
      ++ "'. Only letters, digits, and underscores are allowed (cannot start with a digit). Hint: try '",
      "' instead.", (Except.error.inj h).symm⟩
  | true =>
    rw [hre] at h
    simp only [Bool.not_true, Bool.false_eq_true, if_false] at h
    cases hkw : iskeyword name with
    | false =>
      rw [hkw] at h
      simp at h
    | true =>
      rw [hkw] at h
      simp only [if_true] at h
      refine ⟨"Invalid project name '", "'. Python keywords are not allowed.", ?_⟩
      rw [kw_subNonWord hkw]
      exact (Except.error.inj h).symm

/-- Witness for C5 at the rejected raw name `my-app`, whose suggested
fix is `my_app`. -/
theorem c5_witness :
    (∃ pre post : String,
      ("Invalid project name '" ++ "my-app"
        ++ "'. Only letters, digits, and underscores are allowed (cannot start with a digit). Hint: try '"
        ++ subNonWord "my-app" ++ "' instead.") = pre ++ subNonWord "my-app" ++ post)
    ∧ subNonWord "my-app" = "my_app" :=
  ⟨c5_rejection_contains_suggestion "my-app" _ rfl, by decide⟩

/-! ### C6 -/

/-- Working directory of the current-directory-mode scenario. -/
def cwdScenario : List String := ["home", "user", "my-cool-app"]

/-- Filesystem of the scenario: the working directory exists and is
empty (only it and its ancestors exist). -/
def fsScenario : List (List String) := [["home"], ["home", "user"], ["home", "user", "my-cool-app"]]

/-- C6: in current-directory mode from an empty directory named
`my-cool-app`, the package name is derived as `my_cool_app`, generation
succeeds, the files land at `src/my_cool_app/...` directly under the
working directory, and no written path passes through an extra directory
named after the project (neither `my_cool_app` nor `my-cool-app`). -/
theorem c6_current_directory_scenario :
    deriveDotName "my-cool-app" = "my_cool_app"
    ∧ hexaGenerate "my_cool_app" "none" false false false true cwdScenario fsScenario
        = .ok ((hexaPlanPaths "my_cool_app" "none" false false false).map
            (fun r => cwdScenario ++ r))
    ∧ (["home", "user", "my-cool-app", "src", "my_cool_app", "__init__.py"]
        ∈ hexaWrites "my_cool_app" "none" false false false true cwdScenario fsScenario)
    ∧ (hexaWrites "my_cool_app" "none" false false false true cwdScenario fsScenario).all
        (fun p => !((cwdScenario ++ ["my_cool_app"]).isPrefixOf p)
          && !((cwdScenario ++ ["my-cool-app"]).isPrefixOf p)) = true :=
  ⟨by decide, rfl, by decide, by decide⟩

/-! ### C7 -/

/-- C7: in current-directory mode, generation fails with the
"directory not empty" error — leaving the filesystem unchanged — exactly
when the working directory contains a pre-existing entry, and proceeds
with the planned writes when it is empty. -/
theorem c7_current_dir_precondition (name db : String) (d ci dv : Bool)
    (cwd : List String) (fs : List (List String)) :
    ((∃ p ∈ fs, cwd <+: p ∧ p ≠ cwd) →
      hexaGenerate name db d ci dv true cwd fs
        = .error "Target directory is not empty. Remove its contents or choose a project name."
      ∧ hexaRunFs name db d ci dv true cwd fs = fs)
    ∧ ((∀ p ∈ fs, cwd <+: p → p = cwd) →
      hexaGenerate name db d ci dv true cwd fs
        = .ok ((hexaPlanPaths name db d ci dv).map (fun r => cwd ++ r))) := by
  have hc : (fs.any (fun p => cwd.isPrefixOf p && !(p == cwd)) = true)
      ↔ (∃ p ∈ fs, cwd <+: p ∧ p ≠ cwd) := by
    simp [List.any_eq_true, Bool.and_eq_true, List.isPrefixOf_iff_prefix, ne_eq]
  constructor
  · intro hex
    constructor
    · unfold hexaGenerate
      rw [if_pos rfl, if_pos (hc.mpr hex)]
    · unfold hexaRunFs hexaGenerate
      rw [if_pos rfl, if_pos (hc.mpr hex)]
  · intro hall
    have hfalse : ¬ (fs.any (fun p => cwd.isPrefixOf p && !(p == cwd)) = true) := by
      intro hcontra
      obtain ⟨p, hp, h1, h2⟩ := hc.mp hcontra
      exact h2 (hall p hp h1)
    unfold hexaGenerate
    rw [if_pos rfl, if_neg hfalse]

/-- Witness for C7: a non-empty directory is rejected with the
filesystem untouched, an empty one is populated. -/
theorem c7_witness :
    (hexaGenerate "proj" "none" false false false true ["d"] [["d"], ["d", "x.txt"]]
        = .error "Target directory is not empty. Remove its contents or choose a project name."
      ∧ hexaRunFs "proj" "none" false false false true ["d"] [["d"], ["d", "x.txt"]]
        = [["d"], ["d", "x.txt"]])
    ∧ hexaGenerate "proj" "none" false false false true ["d"] [["d"]]
        = .ok ((hexaPlanPaths "proj" "none" false false false).map (fun r => ["d"] ++ r)) :=
  ⟨(c7_current_dir_precondition "proj" "none" false false false ["d"] _).1
      ⟨["d", "x.txt"], by decide, by decide, by decide⟩,
    (c7_current_dir_precondition "proj" "none" false false false ["d"] _).2 (by decide)⟩

/-! ### C8 -/

/-- Persistence directory of the `sqlproj`/`postgres` scenario. -/
def pgDirScenario : List String :=
  ["src", "sqlproj", "adapters", "outbound", "persistence", "postgres"]

/-- C8 counterexample: the planned `persistence/postgres/` directory does
not contain exactly four files — the generator also writes an
`__init__.py` there, so it contains five. -/
theorem c8_counterexample :
    ¬ (((bpPlanPaths cfgSql).filter (fun p => pgDirScenario.isPrefixOf p)).length = 4) := by
  decide

/-- C8 (amended): for `name = "sqlproj"`, `db = "postgres"`, the planned
`persistence/postgres/` subtree contains exactly five files — the package
`__init__.py` plus the connection, data-model, repository and
connection-configuration modules — and the package manifest carries the
database driver dependencies. -/
theorem c8_pg_persistence_subtree :
    (bpPlanPaths cfgSql).filter (fun p => pgDirScenario.isPrefixOf p)
      = [pgDirScenario ++ ["__init__.py"],
         pgDirScenario ++ ["database.py"],
         pgDirScenario ++ ["models.py"],
         pgDirScenario ++ ["repositories.py"],
         pgDirScenario ++ ["config.py"]]
    ∧ pyprojectHasDbDeps cfgSql.db = true := by
  constructor
  · decide
  · decide

/-! ### C3 -/

/-- C3 counterexample: at `db = none`, toggling only the devcontainer
flag changes the planned path set by more than the devcontainer
descriptor — it also toggles `.vscode/launch.json`. -/
theorem c3_counterexample :
    ¬ ((bpPlanPaths cfgDevOn).filter (fun p => !((bpPlanPaths cfgDevOff).contains p))
        = [[".devcontainer", "devcontainer.json"]]) := by
  decide

/-- C3 (amended): each of the three feature flags independently appends
exactly its own block — docker the Dockerfile/compose/container-ignore
set, ci the workflow file, devcontainer the descriptor plus the
`.vscode/launch.json` launch file plus (when `db ≠ none`) the
devcontainer-scoped compose file — and each block is disjoint from the
flags-off plan and from the other blocks, with the devcontainer × db
interaction the only cross-dependence. -/
theorem c3_flags_independent (nm de au db py : String) (d ci dv : Bool) :
    (bpPlan ⟨nm, de, au, db, py, d, ci, dv⟩
      = bpPlan ⟨nm, de, au, db, py, false, false, false⟩
        ++ (if d then dockerEntries else [])
        ++ (if ci then ciEntries else [])
        ++ (if dv then devEntries db else []))
    ∧ List.Disjoint (dockerEntries.map (·.1)) (bpPlanPaths ⟨nm, de, au, db, py, false, false, false⟩)
    ∧ List.Disjoint (ciEntries.map (·.1)) (bpPlanPaths ⟨nm, de, au, db, py, false, false, false⟩)
    ∧ List.Disjoint ((devEntries db).map (·.1)) (bpPlanPaths ⟨nm, de, au, db, py, false, false, false⟩)
    ∧ List.Disjoint (dockerEntries.map (·.1)) (ciEntries.map (·.1))
    ∧ List.Disjoint (dockerEntries.map (·.1)) ((devEntries db).map (·.1))
    ∧ List.Disjoint (ciEntries.map (·.1)) ((devEntries db).map (·.1)) := by
  refine ⟨?_, ?_, ?_, ?_, ?_, ?_, ?_⟩
  · simp [bpPlan]
  · exact heads_disj
      (by decide : ∀ q ∈ dockerEntries.map (·.1), q.headD "" ∈ ["docker", ".dockerignore"])
      (base_first nm de au db py) (by decide)
  · exact heads_disj
      (by decide : ∀ q ∈ ciEntries.map (·.1), q.headD "" ∈ [".github"])
      (base_first nm de au db py) (by decide)
  · exact heads_disj (dev_first db) (base_first nm de au db py) (by decide)
  · exact heads_disj
      (by decide : ∀ q ∈ dockerEntries.map (·.1), q.headD "" ∈ ["docker", ".dockerignore"])
      (by decide : ∀ q ∈ ciEntries.map (·.1), q.headD "" ∈ [".github"]) (by decide)
  · exact heads_disj
      (by decide : ∀ q ∈ dockerEntries.map (·.1), q.headD "" ∈ ["docker", ".dockerignore"])
      (dev_first db) (by decide)
  · exact heads_disj
      (by decide : ∀ q ∈ ciEntries.map (·.1), q.headD "" ∈ [".github"])
      (dev_first db) (by decide)

/-- Witness for C3 at a concrete configuration: turning only the docker
flag on appends exactly the docker block. -/
theorem c3_witness :
    bpPlan cfgDockerOnly = bpPlan cfgDevOff ++ dockerEntries := by
  simpa [cfgDockerOnly, cfgDevOff] using
    (c3_flags_independent "proj" "A demo project" "Dev" "none" "3.12" true false false).1

/-! ### C2 -/

/-- C2: `db = none` removes the whole persistence subtree, the database
port file and the database settings fields from the generated project;
`db = postgres` makes all of them present. -/
theorem c2_db_gates_persistence (c : Config) :
    (c.db = "none" →
      (∀ p ∈ bpPlanPaths c,
        ¬ ((["src", c.name, "adapters", "outbound", "persistence"]) <+: p))
      ∧ ["src", c.name, "application", "ports", "outbound", "database.py"] ∉ bpPlanPaths c
      ∧ settingsHasDbFields c.db = false)
    ∧ (c.db = "postgres" →
      ["src", c.name, "adapters", "outbound", "persistence", "__init__.py"] ∈ bpPlanPaths c
      ∧ (∀ m ∈ (["database.py", "models.py", "repositories.py", "config.py"] : List String),
          ["src", c.name, "adapters", "outbound", "persistence", "postgres", m] ∈ bpPlanPaths c)
      ∧ ["src", c.name, "application", "ports", "outbound", "database.py"] ∈ bpPlanPaths c
      ∧ settingsHasDbFields c.db = true) := by
  constructor
  · intro hdb
    refine ⟨?_, ?_, ?_⟩
    · intro p hp
      rw [mem_bpPlanPaths_iff] at hp
      rcases hp with ⟨e, he, rfl⟩ | hp | hp | hp | ⟨-, hp⟩ | ⟨-, hp⟩ | ⟨-, hp⟩
      · rw [hdb] at he
        rw [show (["src", c.name, "adapters", "outbound", "persistence"] : List String)
            = ["src", c.name] ++ ["adapters", "outbound", "persistence"] from rfl,
          List.prefix_append_right_inj]
        exact (by decide :
          ∀ e ∈ srcEntries "none", ¬ (["adapters", "outbound", "persistence"] <+: e.1)) e he
      · exact not_prefix_of_head_ne
          ((by decide : ∀ q ∈ testEntries.map (·.1), q.headD "" ≠ "src") p hp)
      · exact not_prefix_of_head_ne
          ((by decide : ∀ q ∈ docEntries.map (·.1), q.headD "" ≠ "src") p hp)
      · exact not_prefix_of_head_ne
          ((by decide : ∀ q ∈ rootEntries.map (·.1), q.headD "" ≠ "src") p hp)
      · exact not_prefix_of_head_ne
          ((by decide : ∀ q ∈ dockerEntries.map (·.1), q.headD "" ≠ "src") p hp)
      · exact not_prefix_of_head_ne
          ((by decide : ∀ q ∈ ciEntries.map (·.1), q.headD "" ≠ "src") p hp)
      · rw [hdb] at hp
        exact not_prefix_of_head_ne
          ((by decide : ∀ q ∈ (devEntries "none").map (·.1), q.headD "" ≠ "src") p hp)
    · intro hp
      rw [mem_bpPlanPaths_iff] at hp
      rcases hp with ⟨e, he, heq⟩ | hp | hp | hp | ⟨-, hp⟩ | ⟨-, hp⟩ | ⟨-, hp⟩
      · rw [hdb] at he
        simp only [List.cons_append, List.nil_append, List.cons.injEq, true_and] at heq
        exact (by decide :
          ∀ e ∈ srcEntries "none",
            e.1 ≠ ["application", "ports", "outbound", "database.py"]) e he heq
      · exact (by decide : ∀ q ∈ testEntries.map (·.1), q.headD "" ≠ "src") _ hp rfl
      · exact (by decide : ∀ q ∈ docEntries.map (·.1), q.headD "" ≠ "src") _ hp rfl
      · exact (by decide : ∀ q ∈ rootEntries.map (·.1), q.headD "" ≠ "src") _ hp rfl
      · exact (by decide : ∀ q ∈ dockerEntries.map (·.1), q.headD "" ≠ "src") _ hp rfl
      · exact (by decide : ∀ q ∈ ciEntries.map (·.1), q.headD "" ≠ "src") _ hp rfl
      · rw [hdb] at hp
        exact (by decide : ∀ q ∈ (devEntries "none").map (·.1), q.headD "" ≠ "src") _ hp rfl
    · rw [hdb]
      decide
  · intro hdb
    refine ⟨?_, ?_, ?_, ?_⟩
    · exact mem_src_plan c (["adapters", "outbound", "persistence", "__init__.py"], .empty)
        (by rw [hdb]; decide)
    · intro m hm
      fin_cases hm
      · exact mem_src_plan c
          (["adapters", "outbound", "persistence", "postgres", "database.py"],
            .template "db/postgres/database.py.j2") (by rw [hdb]; decide)
      · exact mem_src_plan c
          (["adapters", "outbound", "persistence", "postgres", "models.py"],
            .template "db/postgres/models.py.j2") (by rw [hdb]; decide)
      · exact mem_src_plan c
          (["adapters", "outbound", "persistence", "postgres", "repositories.py"],
            .template "db/postgres/repositories.py.j2") (by rw [hdb]; decide)
      · exact mem_src_plan c
          (["adapters", "outbound", "persistence", "postgres", "config.py"],
            .template "db/postgres/config.py.j2") (by rw [hdb]; decide)
    · exact mem_src_plan c
        (["application", "ports", "outbound", "database.py"],
          .template "base/database_port.py.j2") (by rw [hdb]; decide)
    · rw [hdb]
      decide

/-- Witness for C2 at the concrete `db = none` and `db = postgres`
configurations. -/
theorem c2_witness :
    ((∀ p ∈ bpPlanPaths cfgDevOff,
        ¬ ((["src", cfgDevOff.name, "adapters", "outbound", "persistence"]) <+: p))
      ∧ ["src", cfgDevOff.name, "application", "ports", "outbound", "database.py"]
          ∉ bpPlanPaths cfgDevOff
      ∧ settingsHasDbFields cfgDevOff.db = false)
    ∧ (["src", cfgSql.name, "adapters", "outbound", "persistence", "__init__.py"]
          ∈ bpPlanPaths cfgSql
      ∧ (∀ m ∈ (["database.py", "models.py", "repositories.py", "config.py"] : List String),
          ["src", cfgSql.name, "adapters", "outbound", "persistence", "postgres", m]
            ∈ bpPlanPaths cfgSql)
      ∧ ["src", cfgSql.name, "application", "ports", "outbound", "database.py"]
          ∈ bpPlanPaths cfgSql
      ∧ settingsHasDbFields cfgSql.db = true) :=
  ⟨(c2_db_gates_persistence cfgDevOff).1 rfl, (c2_db_gates_persistence cfgSql).2 rfl⟩

/-! ### C10 -/

/-- C10: the `.vscode/launch.json` file sits at the project root, outside
`.devcontainer/`, and is planned exactly when the devcontainer flag is
set, for every configuration. -/
theorem c10_launch_gated_by_devcontainer (c : Config) :
    [".vscode", "launch.json"] ∈ bpPlanPaths c ↔ c.devcontainer = true := by
  rw [mem_bpPlanPaths_iff]
  constructor
  · rintro (⟨e, he, heq⟩ | hp | hp | hp | ⟨-, hp⟩ | ⟨-, hp⟩ | ⟨hdv, -⟩)
    · exact absurd heq (by simp)
    · exact absurd hp (by decide)
    · exact absurd hp (by decide)
    · exact absurd hp (by decide)
    · exact absurd hp (by decide)
    · exact absurd hp (by decide)
    · exact hdv
  · intro hdv
    exact Or.inr (Or.inr (Or.inr (Or.inr (Or.inr (Or.inr ⟨hdv, launch_mem_dev c.db⟩)))))

/-- Witness for C10 at a concrete devcontainer-enabled configuration. -/
theorem c10_witness : [".vscode", "launch.json"] ∈ bpPlanPaths cfgDevOn :=
  (c10_launch_gated_by_devcontainer cfgDevOn).mpr rfl
